import Mathlib

/-!
# Verification of the schema-type validator of `dynamodb-data-mapper-js`

Shallow embedding of `src/packages/marshaller/lib/SchemaType.ts`.

The source module exports a registry of type tags (`TypeTags`), a registry of
key kinds (`KeyTypes`), and a recursive runtime validator `isSchemaType`
built from the helpers `isBaseType`, `isKeyConfiguration`,
`isIndexKeyConfiguration` and `isKeyableType`.  The spec calls the validator
`isValidSchemaNode`, the `type` field `kind`, the `attributeName` field
`persistedName`, and the key roles `PRIMARY_HASH` / `PRIMARY_RANGE`
(source: `HASH` / `RANGE`).

JavaScript dynamic values are modelled by the inductive type `Val`:
`undefined`, `null`, booleans, numbers, strings, functions (opaque — the
validator only tests `typeof f === 'function'` and never calls them),
arrays, and plain objects given as ordered own-property lists.
-/

namespace SchemaTypeJS

/-- A JavaScript value, as far as the validator can observe it.  Functions
carry no payload because no embedded operation applies them.  Numbers are
modelled as integers; the validator never does arithmetic, it only asks
`typeof`/truthiness questions, for which the fractional part is irrelevant
(`0` is the only falsy finite number we need, and `NaN` never arises from
the validator itself). -/
inductive Val where
  | vUndefined : Val
  | vNull : Val
  | vBool : Bool → Val
  | vNum : Int → Val
  | vStr : String → Val
  | vFun : Val
  | vArr : List Val → Val
  | vObj : List (String × Val) → Val
deriving Repr

/-- JavaScript `typeof`. -/
def jsTypeof : Val → String
  | .vUndefined => "undefined"
  | .vNull => "object"
  | .vBool _ => "boolean"
  | .vNum _ => "number"
  | .vStr _ => "string"
  | .vFun => "function"
  | .vArr _ => "object"
  | .vObj _ => "object"

/-- JavaScript truthiness (`Boolean(v)`). -/
def isTruthy : Val → Bool
  | .vUndefined => false
  | .vNull => false
  | .vBool b => b
  | .vNum n => n != 0
  | .vStr s => s ≠ ""
  | .vFun => true
  | .vArr _ => true
  | .vObj _ => true

/-- Property access `v[k]` for a string key `k`: own properties of a plain
object (first binding wins), index properties of an array, and `undefined`
everywhere else.  (The non-enumerable `length` property of arrays is left
out: no operation of the embedded module reads it through property
access — the one `.length` use in the source is on a genuine array and is
modelled directly on the element list.) -/
def getField : Val → String → Val
  | .vObj fs, k =>
    match fs.find? (fun p => p.1 == k) with
    | some p => p.2
    | none => .vUndefined
  | .vArr xs, k =>
    match ((List.range xs.length).zip xs).find? (fun p => toString p.1 == k) with
    | some p => p.2
    | none => .vUndefined
  | _, _ => .vUndefined

/-- `Object.keys(v)`: own enumerable property names, in order. -/
def jsKeys : Val → List String
  | .vObj fs => fs.map (·.1)
  | .vArr xs => (List.range xs.length).map toString
  | _ => []

/-- `Array.isArray(v)`. -/
def jsIsArray : Val → Bool
  | .vArr _ => true
  | _ => false

/-- ES `ToString` / `ToPropertyKey` for the left operand of the `in`
operator.  For plain objects this is `"[object Object]"`, for arrays the
comma-join of their elements (`null`/`undefined` joining as the empty
string), and for functions the source text of the function.  A function's
source text is a whole function expression, never a bare identifier, so any
fixed representative of that shape preserves every registry-membership
answer; we use the form printed for native functions. -/
def toPropKey : Val → String
  | .vUndefined => "undefined"
  | .vNull => "null"
  | .vBool b => if b then "true" else "false"
  | .vNum n => toString n
  | .vStr s => s
  | .vFun => "function () \x7b [native code] \x7d"
  | .vObj _ => "[object Object]"
  | .vArr xs =>
    String.intercalate "," (xs.attach.map fun x =>
      match x with
      | ⟨.vUndefined, _⟩ => ""
      | ⟨.vNull, _⟩ => ""
      | ⟨v, _⟩ => toPropKey v)
termination_by v => sizeOf v
decreasing_by
  have hv : v ∈ xs := by assumption
  have := List.sizeOf_lt_of_mem hv
  simp only [Val.vArr.sizeOf_spec]
  omega

/-- The own keys of the `TypeTags` registry object
(`SchemaType.ts` lines 7–24).  Note: the source registry has 16 own keys
(the spec speaks of a "fixed 15-element set", a miscount; the closed set
below is copied from the source). -/
def typeTagsKeys : List String :=
  ["Binary", "BinarySet", "Boolean", "Collection", "Custom", "Date",
   "Document", "Hash", "List", "Map", "Null", "Number", "NumberSet",
   "String", "StringSet", "Tuple"]

/-- The own keys of the `KeyTypes` registry object
(`SchemaType.ts` lines 67–70): the 2 recognized key roles. -/
def keyTypesKeys : List String :=
  ["HASH", "RANGE"]

/-- The property names of `Object.prototype` (ES2020).  `TypeTags` and
`KeyTypes` are object literals, so their prototype chain is
`Object.prototype` followed by `null`, and JavaScript's `in` operator finds
these names on every object literal. -/
def objectPrototypeKeys : List String :=
  ["constructor", "hasOwnProperty", "isPrototypeOf", "propertyIsEnumerable",
   "toLocaleString", "toString", "valueOf", "__defineGetter__",
   "__defineSetter__", "__lookupGetter__", "__lookupSetter__", "__proto__"]

/-- The `in` operator `k in O` for an object literal `O` with own keys
`own`: membership among the own keys or anywhere on the prototype chain
(here: `Object.prototype`). -/
def inOp (k : String) (own : List String) : Bool :=
  own.contains k || objectPrototypeKeys.contains k

/-- `isBaseType` (`SchemaType.ts` lines 48–53):
`Boolean(arg) && typeof arg === 'object' && typeof arg.type === 'string'
&& arg.type in TypeTags
&& ['string', 'undefined'].indexOf(typeof arg.attributeName) > -1`
(`indexOf(x) > -1` is list membership). -/
def isBaseType (arg : Val) : Bool :=
  isTruthy arg && jsTypeof arg == "object"
    && jsTypeof (getField arg "type") == "string"
    && inOp (toPropKey (getField arg "type")) typeTagsKeys
    && ["string", "undefined"].contains (jsTypeof (getField arg "attributeName"))

/-- `isKeyConfiguration` (`SchemaType.ts` lines 87–89):
`Boolean(arg) && arg.type in KeyTypes`. -/
def isKeyConfiguration (arg : Val) : Bool :=
  isTruthy arg && inOp (toPropKey (getField arg "type")) keyTypesKeys

/-- `isIndexKeyConfiguration` (`SchemaType.ts` lines 101–103):
`isKeyConfiguration(arg) && typeof arg.indexName === 'string'`. -/
def isIndexKeyConfiguration (arg : Val) : Bool :=
  isKeyConfiguration arg && jsTypeof (getField arg "indexName") == "string"

/-- JavaScript strict equality with `undefined` (`v === undefined`). -/
def isUndef : Val → Bool
  | .vUndefined => true
  | _ => false

/-- `isKeyableType` (`SchemaType.ts` lines 121–136):
`(keyConfiguration === undefined || isKeyConfiguration(keyConfiguration))
&& (indexKeyConfigurations === undefined ||
    (Array.isArray(indexKeyConfigurations) &&
     indexKeyConfigurations.map(isIndexKeyConfiguration)
       .filter(b => !b).length === 0))`. -/
def isKeyableType (arg : Val) : Bool :=
  (isUndef (getField arg "keyConfiguration")
    || isKeyConfiguration (getField arg "keyConfiguration"))
  && (isUndef (getField arg "indexKeyConfigurations")
    || (jsIsArray (getField arg "indexKeyConfigurations")
        && (match getField arg "indexKeyConfigurations" with
            | .vArr xs =>
              ((xs.map isIndexKeyConfiguration).filter (fun b => !b)).length == 0
            | _ => false)))

/-- Reading a property of a truthy value of `typeof` `"object"` (i.e. an
array or a plain object) yields a strictly smaller value; this drives the
termination of the recursive validator. -/
theorem sizeOf_getField_lt (v : Val) (k : String)
    (h1 : isTruthy v = true) (h2 : jsTypeof v = "object") :
    sizeOf (getField v k) < sizeOf v := by
  cases v with
  | vUndefined => simp [isTruthy] at h1
  | vNull => simp [isTruthy] at h1
  | vBool b => simp [jsTypeof] at h2
  | vNum n => simp [jsTypeof] at h2
  | vStr s => simp [jsTypeof] at h2
  | vFun => simp [jsTypeof] at h2
  | vArr xs =>
    simp only [getField]
    cases hf : ((List.range xs.length).zip xs).find? (fun p => toString p.1 == k) with
    | none =>
      have : (1 : ℕ) ≤ sizeOf xs := by cases xs <;> simp_arith
      simp only [Val.vArr.sizeOf_spec, Val.vUndefined.sizeOf_spec]
      omega
    | some p =>
      have hmem : p ∈ (List.range xs.length).zip xs := List.mem_of_find?_eq_some hf
      have hmem2 : p.2 ∈ xs := (List.of_mem_zip hmem).2
      have := List.sizeOf_lt_of_mem hmem2
      simp only [Val.vArr.sizeOf_spec]
      omega
  | vObj fs =>
    simp only [getField]
    cases hf : fs.find? (fun p => p.1 == k) with
    | none =>
      have : (1 : ℕ) ≤ sizeOf fs := by cases fs <;> simp_arith
      simp only [Val.vObj.sizeOf_spec, Val.vUndefined.sizeOf_spec]
      omega
    | some p =>
      have hmem : p ∈ fs := List.mem_of_find?_eq_some hf
      have hp := List.sizeOf_lt_of_mem hmem
      have : sizeOf p.2 < sizeOf p := by
        obtain ⟨a, b⟩ := p
        simp_arith
      simp only [Val.vObj.sizeOf_spec]
      omega

/-- A value passing `isBaseType` is a truthy value of `typeof` `"object"`. -/
theorem isBaseType_object {arg : Val} (h : isBaseType arg = true) :
    isTruthy arg = true ∧ jsTypeof arg = "object" := by
  simp only [isBaseType, Bool.and_eq_true, beq_iff_eq] at h
  exact ⟨h.1.1.1.1, h.1.1.1.2⟩

/-- `isSchemaType` (`SchemaType.ts` lines 339–387), the spec's
`isValidSchemaNode`: the base check, then a `switch` on `arg.type`.
`Binary`/`String` delegate to `isKeyableType`; `Custom` requires
function-typed `marshall`/`unmarshall`; `Document` requires a truthy
object-typed `members` (`!members || typeof members !== 'object'` returns
false), every `Object.keys` entry recursively valid, and
`['function', 'undefined'].indexOf(typeof valueConstructor) > -1`;
`List`/`Map` recurse into `memberType`; `Number` adds the
`versionAttribute` typeof test to `isKeyableType`; `Tuple` requires an
array `members` with every element recursively valid; every other tag
reaching the switch returns true (the `default` branch). -/
def isSchemaType (arg : Val) : Bool :=
  if hb : isBaseType arg = true then
    match getField arg "type" with
    | .vStr "Binary" => isKeyableType arg
    | .vStr "String" => isKeyableType arg
    | .vStr "Custom" =>
      jsTypeof (getField arg "marshall") == "function"
        && jsTypeof (getField arg "unmarshall") == "function"
    | .vStr "Document" =>
      if hm : isTruthy (getField arg "members") = true
          ∧ jsTypeof (getField arg "members") = "object" then
        ((jsKeys (getField arg "members")).all fun k =>
          isSchemaType (getField (getField arg "members") k))
        && ["function", "undefined"].contains
            (jsTypeof (getField arg "valueConstructor"))
      else false
    | .vStr "List" => isSchemaType (getField arg "memberType")
    | .vStr "Map" => isSchemaType (getField arg "memberType")
    | .vStr "Number" =>
      isKeyableType arg
        && ["boolean", "undefined"].contains
            (jsTypeof (getField arg "versionAttribute"))
    | .vStr "Tuple" =>
      match hmem : getField arg "members" with
      | .vArr xs => xs.attach.all fun m => isSchemaType m.1
      | _ => false
    | _ => true
  else false
termination_by sizeOf arg
decreasing_by
  all_goals obtain ⟨h1, h2⟩ := isBaseType_object hb
  all_goals first
    | exact lt_trans (sizeOf_getField_lt _ k hm.1 hm.2)
        (sizeOf_getField_lt _ "members" h1 h2)
    | exact sizeOf_getField_lt _ "memberType" h1 h2
    | · have hmm := sizeOf_getField_lt arg "members" h1 h2
        rw [hmem] at hmm
        have hv : m.1 ∈ xs := m.2
        have := List.sizeOf_lt_of_mem hv
        simp only [Val.vArr.sizeOf_spec] at hmm
        omega

/-- `attach`-free reading of an all-elements check. -/
theorem all_attach (xs : List Val) (p : Val → Bool) :
    (xs.attach.all fun m => p m.1) = xs.all p := by
  rw [Bool.eq_iff_iff]
  simp only [List.all_eq_true, List.mem_attach, true_implies, Subtype.forall]

/-- The validator returns false as soon as the base check fails. -/
theorem isSchemaType_not_base {arg : Val} (hb : isBaseType arg = false) :
    isSchemaType arg = false := by
  rw [isSchemaType.eq_def, dif_neg]
  simp [hb]

/-- A validated value passed the base check. -/
theorem base_of_isSchemaType {arg : Val} (h : isSchemaType arg = true) :
    isBaseType arg = true := by
  by_contra hb
  rw [isSchemaType_not_base (Bool.not_eq_true _ ▸ hb)] at h
  exact Bool.false_ne_true h

/-- Unfolding of the `'Binary'` switch branch. -/
theorem isSchemaType_tag_Binary {arg : Val} (hb : isBaseType arg = true)
    (ht : getField arg "type" = Val.vStr "Binary") :
    isSchemaType arg = isKeyableType arg := by
  rw [isSchemaType.eq_def, dif_pos hb, ht]
  rfl

/-- Unfolding of the `'String'` switch branch. -/
theorem isSchemaType_tag_String {arg : Val} (hb : isBaseType arg = true)
    (ht : getField arg "type" = Val.vStr "String") :
    isSchemaType arg = isKeyableType arg := by
  rw [isSchemaType.eq_def, dif_pos hb, ht]
  rfl

/-- Unfolding of the `'Custom'` switch branch. -/
theorem isSchemaType_tag_Custom {arg : Val} (hb : isBaseType arg = true)
    (ht : getField arg "type" = Val.vStr "Custom") :
    isSchemaType arg =
      (jsTypeof (getField arg "marshall") == "function"
        && jsTypeof (getField arg "unmarshall") == "function") := by
  rw [isSchemaType.eq_def, dif_pos hb, ht]
  rfl

/-- Unfolding of the `'List'` switch branch. -/
theorem isSchemaType_tag_List {arg : Val} (hb : isBaseType arg = true)
    (ht : getField arg "type" = Val.vStr "List") :
    isSchemaType arg = isSchemaType (getField arg "memberType") := by
  rw [isSchemaType.eq_def, dif_pos hb, ht]
  rfl

/-- Unfolding of the `'Map'` switch branch. -/
theorem isSchemaType_tag_Map {arg : Val} (hb : isBaseType arg = true)
    (ht : getField arg "type" = Val.vStr "Map") :
    isSchemaType arg = isSchemaType (getField arg "memberType") := by
  rw [isSchemaType.eq_def, dif_pos hb, ht]
  rfl

/-- Unfolding of the `'Number'` switch branch. -/
theorem isSchemaType_tag_Number {arg : Val} (hb : isBaseType arg = true)
    (ht : getField arg "type" = Val.vStr "Number") :
    isSchemaType arg =
      (isKeyableType arg
        && ["boolean", "undefined"].contains
            (jsTypeof (getField arg "versionAttribute"))) := by
  rw [isSchemaType.eq_def, dif_pos hb, ht]
  rfl

/-- Unfolding of the `'Document'` switch branch, with the guard
`!members || typeof members !== 'object'` folded into a boolean
conjunction. -/
theorem isSchemaType_tag_Document {arg : Val} (hb : isBaseType arg = true)
    (ht : getField arg "type" = Val.vStr "Document") :
    isSchemaType arg =
      (isTruthy (getField arg "members")
        && jsTypeof (getField arg "members") == "object"
        && ((jsKeys (getField arg "members")).all fun k =>
            isSchemaType (getField (getField arg "members") k))
        && ["function", "undefined"].contains
            (jsTypeof (getField arg "valueConstructor"))) := by
  have step : isSchemaType arg =
      (if _hm : isTruthy (getField arg "members") = true
          ∧ jsTypeof (getField arg "members") = "object" then
        ((jsKeys (getField arg "members")).all fun k =>
          isSchemaType (getField (getField arg "members") k))
        && ["function", "undefined"].contains
            (jsTypeof (getField arg "valueConstructor"))
      else false) := by
    rw [isSchemaType.eq_def, dif_pos hb, ht]
    rfl
  rw [step]
  by_cases h1 : isTruthy (getField arg "members") = true
  · by_cases h2 : jsTypeof (getField arg "members") = "object"
    · rw [dif_pos ⟨h1, h2⟩, h1, h2]
      simp [Bool.and_assoc]
    · rw [dif_neg (by tauto)]
      have : (jsTypeof (getField arg "members") == "object") = false := by
        simpa using h2
      simp [this]
  · rw [dif_neg (by tauto)]
    have : isTruthy (getField arg "members") = false := by
      simpa using h1
    simp [this]

/-- Unfolding of the `'Tuple'` switch branch when `members` is an array. -/
theorem isSchemaType_tag_Tuple_arr {arg : Val} {xs : List Val}
    (hb : isBaseType arg = true)
    (ht : getField arg "type" = Val.vStr "Tuple")
    (hm : getField arg "members" = Val.vArr xs) :
    isSchemaType arg = xs.all isSchemaType := by
  have step : isSchemaType arg =
      (match _hmem : getField arg "members" with
        | Val.vArr ys => ys.attach.all fun m => isSchemaType m.1
        | _ => false) := by
    rw [isSchemaType.eq_def, dif_pos hb, ht]
    rfl
  rw [step]
  split
  · rename_i ys heq
    rw [hm] at heq
    cases heq
    exact all_attach xs isSchemaType
  · rename_i hno
    exact absurd hm (hno xs)

/-- Unfolding of the `'Tuple'` switch branch when `members` is not an
array. -/
theorem isSchemaType_tag_Tuple_notarr {arg : Val}
    (hb : isBaseType arg = true)
    (ht : getField arg "type" = Val.vStr "Tuple")
    (hm : jsIsArray (getField arg "members") = false) :
    isSchemaType arg = false := by
  have step : isSchemaType arg =
      (match _hmem : getField arg "members" with
        | Val.vArr ys => ys.attach.all fun m => isSchemaType m.1
        | _ => false) := by
    rw [isSchemaType.eq_def, dif_pos hb, ht]
    rfl
  rw [step]
  split
  · rename_i ys heq
    rw [heq] at hm
    simp [jsIsArray] at hm
  · rfl

/-- Every registered tag whose switch branch is the `default` clause
(all of `BinarySet`, `Boolean`, `Collection`, `Date`, `Hash`, `Null`,
`NumberSet`, `StringSet` — and any other string reaching the switch)
returns true once the base check has passed. -/
theorem isSchemaType_tag_default {arg : Val} {s : String}
    (hb : isBaseType arg = true)
    (ht : getField arg "type" = Val.vStr s)
    (hs : s ∉ (["Binary", "String", "Custom", "Document", "List", "Map",
                "Number", "Tuple"] : List String)) :
    isSchemaType arg = true := by
  rw [isSchemaType.eq_def, dif_pos hb, ht]
  split <;> simp_all

/-!
## The claims
-/

/-- Claim C1, evaluation at the failing input.  The claim states that
every string `k` outside the registered kind tags — explicitly including
property names inherited from a prototype — makes
`isValidSchemaNode({kind: k})` return false.  The code tests membership
with `arg.type in TypeTags`, and JavaScript's `in` operator walks the
prototype chain of the object literal `TypeTags`, so the unregistered
string `"toString"` (an `Object.prototype` property name, not among the
registry's own keys) passes `isBaseType`, reaches the `switch`, falls into
its `default` clause and the validator returns true — contradicting both
the claim and the declared narrowing `arg is SchemaType` (whose `type`
field admits only the registered literals). -/
theorem c1_prototype_tag_accepted :
    typeTagsKeys.contains "toString" = false
    ∧ isSchemaType (Val.vObj [("type", Val.vStr "toString")]) = true := by
  constructor
  · decide
  · apply isSchemaType_tag_default (s := "toString")
    · simp [isBaseType, getField, jsTypeof, isTruthy, toPropKey, inOp,
            typeTagsKeys, objectPrototypeKeys]
    · rfl
    · decide

/-- Claim C2: whenever the base contract fails — the value is not a
truthy value of `typeof` `"object"`, or its `type` field is not a string,
or that string fails the `in TypeTags` membership test, or its
`attributeName` field is present but not a string — the validator returns
false (the `switch` is never reached, so no kind-specific field is
inspected and no recursion happens). -/
theorem c2_base_contract_short_circuit (arg : Val)
    (h : isTruthy arg = false
      ∨ jsTypeof arg ≠ "object"
      ∨ jsTypeof (getField arg "type") ≠ "string"
      ∨ inOp (toPropKey (getField arg "type")) typeTagsKeys = false
      ∨ (jsTypeof (getField arg "attributeName") ≠ "string"
          ∧ jsTypeof (getField arg "attributeName") ≠ "undefined")) :
    isSchemaType arg = false := by
  apply isSchemaType_not_base
  simp only [isBaseType, Bool.and_eq_false_iff, beq_eq_false_iff_ne, ne_eq]
  rcases h with h | h | h | h | h
  · exact Or.inl (Or.inl (Or.inl (Or.inl h)))
  · exact Or.inl (Or.inl (Or.inl (Or.inr h)))
  · exact Or.inl (Or.inl (Or.inr h))
  · exact Or.inl (Or.inr h)
  · refine Or.inr ?_
    simp [List.contains]
    tauto

/-- Claim C2 witness: `null` is not a truthy object, and the validator
rejects it. -/
theorem c2_witness :
    isSchemaType Val.vNull = false :=
  c2_base_contract_short_circuit Val.vNull (Or.inl rfl)

/-- Claim C3, counterexample.  The claim states that a node whose
`attributeName` (spec: `persistedName`) is the empty string is not a valid
schema node; the code only tests
`['string', 'undefined'].indexOf(typeof arg.attributeName) > -1`, and
`typeof '' === 'string'`, so the node validates true. -/
theorem c3_empty_persisted_name_accepted :
    isSchemaType (Val.vObj [("type", Val.vStr "String"),
      ("attributeName", Val.vStr "")]) = true := by
  rw [isSchemaType_tag_String ?hb ?ht]
  · rfl
  case ht => rfl
  case hb =>
    simp [isBaseType, getField, jsTypeof, isTruthy, toPropKey, inOp,
          typeTagsKeys, objectPrototypeKeys]

/-- Claim C3 as amended: a validated node's `attributeName` is absent or a
string — any string, the empty string included; no non-emptiness or
identifier-shape check is performed. -/
theorem c3_persisted_name_string_when_valid (arg : Val)
    (h : isSchemaType arg = true) :
    jsTypeof (getField arg "attributeName") = "string"
    ∨ jsTypeof (getField arg "attributeName") = "undefined" := by
  have hb := base_of_isSchemaType h
  simp only [isBaseType, Bool.and_eq_true, beq_iff_eq] at hb
  have := hb.2
  simpa using this

/-- Claim C3 amended-theorem witness, at the node whose `attributeName`
is the empty string. -/
theorem c3_witness :
    jsTypeof (getField (Val.vObj [("type", Val.vStr "String"),
      ("attributeName", Val.vStr "")]) "attributeName") = "string"
    ∨ jsTypeof (getField (Val.vObj [("type", Val.vStr "String"),
      ("attributeName", Val.vStr "")]) "attributeName") = "undefined" := by
  apply c3_persisted_name_string_when_valid
  rw [isSchemaType_tag_String ?hb ?ht]
  · rfl
  case ht => rfl
  case hb =>
    simp [isBaseType, getField, jsTypeof, isTruthy, toPropKey, inOp,
          typeTagsKeys, objectPrototypeKeys]

/-- Claim C4, evaluation at the failing input.  The claim requires a
keyable node to validate only when its `keyConfiguration.type` (spec:
`role`) lies in the two-element role registry; the code tests
`arg.type in KeyTypes`, whose prototype-chain walk accepts the
unregistered role `"toString"`, so a Number node with
`keyConfiguration: {type: 'toString'}` validates true against the claim. -/
theorem c4_prototype_role_accepted :
    keyTypesKeys.contains "toString" = false
    ∧ isSchemaType (Val.vObj [("type", Val.vStr "Number"),
        ("keyConfiguration", Val.vObj [("type", Val.vStr "toString")])])
      = true := by
  constructor
  · decide
  · rw [isSchemaType_tag_Number ?hb ?ht]
    · simp [isKeyableType, isUndef, getField, isKeyConfiguration, isTruthy,
            toPropKey, inOp, keyTypesKeys, objectPrototypeKeys, jsTypeof]
    case ht => rfl
    case hb =>
      simp [isBaseType, getField, jsTypeof, isTruthy, toPropKey, inOp,
            typeTagsKeys, objectPrototypeKeys]

/-- Claim C5: a Custom node that passed the base check validates true iff
both its `marshall` and `unmarshall` fields are function-typed values
(`typeof === 'function'`); a missing field (`typeof` `"undefined"`), a
`null`, a string, or any other non-function value on either side makes it
validate false.  The functions are opaque in the model — validation never
applies them. -/
theorem c5_custom_requires_invocable_pair (arg : Val)
    (hb : isBaseType arg = true)
    (ht : getField arg "type" = Val.vStr "Custom") :
    isSchemaType arg = true
    ↔ (jsTypeof (getField arg "marshall") = "function"
        ∧ jsTypeof (getField arg "unmarshall") = "function") := by
  rw [isSchemaType_tag_Custom hb ht]
  simp [Bool.and_eq_true]

/-- Claim C5 witness: a Custom node with two function fields validates
true; dropping `unmarshall` turns the same node invalid. -/
theorem c5_witness :
    isSchemaType (Val.vObj [("type", Val.vStr "Custom"),
      ("marshall", Val.vFun), ("unmarshall", Val.vFun)]) = true
    ∧ isSchemaType (Val.vObj [("type", Val.vStr "Custom"),
      ("marshall", Val.vFun)]) = false := by
  constructor
  · exact (c5_custom_requires_invocable_pair
      (Val.vObj [("type", Val.vStr "Custom"),
        ("marshall", Val.vFun), ("unmarshall", Val.vFun)])
      (by simp [isBaseType, getField, jsTypeof, isTruthy, toPropKey, inOp,
                typeTagsKeys, objectPrototypeKeys]) rfl).mpr ⟨rfl, rfl⟩
  · have := c5_custom_requires_invocable_pair
      (Val.vObj [("type", Val.vStr "Custom"), ("marshall", Val.vFun)])
      (by simp [isBaseType, getField, jsTypeof, isTruthy, toPropKey, inOp,
                typeTagsKeys, objectPrototypeKeys]) rfl
    rcases hsv : isSchemaType (Val.vObj [("type", Val.vStr "Custom"),
      ("marshall", Val.vFun)]) with _ | _
    · rfl
    · exact absurd ((this.mp hsv).2) (by simp [getField, jsTypeof])

/-- Claim C6: a Document node that passed the base check validates true
iff its `members` field is a truthy value of `typeof` `"object"` (a
non-null object), every own key of `members` holds a recursively valid
schema node, and `valueConstructor` is function-typed or absent.  The
universally quantified conjunct makes misvalidation of any single member
fatal — no partial validity. -/
theorem c6_document_members_all_valid (arg : Val)
    (hb : isBaseType arg = true)
    (ht : getField arg "type" = Val.vStr "Document") :
    isSchemaType arg = true
    ↔ (isTruthy (getField arg "members") = true
        ∧ jsTypeof (getField arg "members") = "object"
        ∧ (∀ k ∈ jsKeys (getField arg "members"),
            isSchemaType (getField (getField arg "members") k) = true)
        ∧ (jsTypeof (getField arg "valueConstructor") = "function"
            ∨ jsTypeof (getField arg "valueConstructor") = "undefined")) := by
  rw [isSchemaType_tag_Document hb ht]
  simp [Bool.and_eq_true, List.all_eq_true, List.contains, and_assoc]

/-- Claim C6 witness: a Document with one Boolean member and no
`valueConstructor` validates true. -/
theorem c6_witness :
    isSchemaType (Val.vObj [("type", Val.vStr "Document"),
      ("members", Val.vObj [("a", Val.vObj [("type", Val.vStr "Boolean")])])])
    = true := by
  refine (c6_document_members_all_valid
    (Val.vObj [("type", Val.vStr "Document"),
      ("members", Val.vObj [("a", Val.vObj [("type", Val.vStr "Boolean")])])])
    (by simp [isBaseType, getField, jsTypeof, isTruthy, toPropKey, inOp,
              typeTagsKeys, objectPrototypeKeys]) rfl).mpr
    ⟨rfl, rfl, ?_, Or.inr rfl⟩
  intro k hk
  have hk' : k = "a" := by simpa [jsKeys, getField] using hk
  subst hk'
  show isSchemaType (Val.vObj [("type", Val.vStr "Boolean")]) = true
  apply isSchemaType_tag_default (s := "Boolean")
  · simp [isBaseType, getField, jsTypeof, isTruthy, toPropKey, inOp,
          typeTagsKeys, objectPrototypeKeys]
  · rfl
  · decide

/-- Claim C7: a List or Map node that passed the base check validates
true iff its `memberType` is itself a valid schema node; nothing else
about `memberType` is inspected, so in particular a `memberType` carrying
its own `attributeName` is not rejected (witnessed below). -/
theorem c7_list_map_delegate_to_member (arg : Val)
    (hb : isBaseType arg = true)
    (ht : getField arg "type" = Val.vStr "List"
        ∨ getField arg "type" = Val.vStr "Map") :
    isSchemaType arg = true ↔ isSchemaType (getField arg "memberType") = true := by
  rcases ht with ht | ht
  · rw [isSchemaType_tag_List hb ht]
  · rw [isSchemaType_tag_Map hb ht]

/-- Claim C7 witness: a List whose `memberType` declares its own
`attributeName` (spec: `persistedName`) validates true — the runtime
validator does not re-verify the member-type constraint. -/
theorem c7_witness :
    isSchemaType (Val.vObj [("type", Val.vStr "List"),
      ("memberType", Val.vObj [("type", Val.vStr "String"),
        ("attributeName", Val.vStr "x")])]) = true := by
  refine (c7_list_map_delegate_to_member
    (Val.vObj [("type", Val.vStr "List"),
      ("memberType", Val.vObj [("type", Val.vStr "String"),
        ("attributeName", Val.vStr "x")])])
    (by simp [isBaseType, getField, jsTypeof, isTruthy, toPropKey, inOp,
              typeTagsKeys, objectPrototypeKeys]) (Or.inl rfl)).mpr ?_
  show isSchemaType (Val.vObj [("type", Val.vStr "String"),
      ("attributeName", Val.vStr "x")]) = true
  rw [isSchemaType_tag_String ?hb ?ht]
  · rfl
  case ht => rfl
  case hb =>
    simp [isBaseType, getField, jsTypeof, isTruthy, toPropKey, inOp,
          typeTagsKeys, objectPrototypeKeys]

/-- An array value is a `vArr`. -/
theorem exists_of_jsIsArray {v : Val} (h : jsIsArray v = true) :
    ∃ xs, v = Val.vArr xs := by
  cases v <;> simp [jsIsArray] at h ⊢

/-- Claim C8: a Tuple node that passed the base check validates true iff
its `members` field is an array all of whose elements are recursively
valid schema nodes; the empty array passes vacuously (witnessed below). -/
theorem c8_tuple_members_all_valid (arg : Val)
    (hb : isBaseType arg = true)
    (ht : getField arg "type" = Val.vStr "Tuple") :
    isSchemaType arg = true
    ↔ (∃ xs, getField arg "members" = Val.vArr xs
        ∧ ∀ m ∈ xs, isSchemaType m = true) := by
  cases hia : jsIsArray (getField arg "members") with
  | false =>
    rw [isSchemaType_tag_Tuple_notarr hb ht hia]
    constructor
    · intro h
      exact absurd h (by simp)
    · rintro ⟨xs, hxs, -⟩
      rw [hxs] at hia
      simp [jsIsArray] at hia
  | true =>
    obtain ⟨xs, hxs⟩ := exists_of_jsIsArray hia
    rw [isSchemaType_tag_Tuple_arr hb ht hxs]
    constructor
    · intro h
      exact ⟨xs, hxs, List.all_eq_true.mp h⟩
    · rintro ⟨ys, hys, hall⟩
      rw [hxs] at hys
      cases hys
      exact List.all_eq_true.mpr hall

/-- Claim C8 witness: a Tuple with an empty `members` array validates
true (zero elements, trivially all valid). -/
theorem c8_witness :
    isSchemaType (Val.vObj [("type", Val.vStr "Tuple"),
      ("members", Val.vArr [])]) = true := by
  refine (c8_tuple_members_all_valid
    (Val.vObj [("type", Val.vStr "Tuple"), ("members", Val.vArr [])])
    (by simp [isBaseType, getField, jsTypeof, isTruthy, toPropKey, inOp,
              typeTagsKeys, objectPrototypeKeys]) rfl).mpr ⟨[], rfl, ?_⟩
  intro m hm
  exact absurd hm (List.not_mem_nil m)

/-- Claim C9: the embedded validator is a total boolean-valued function
over every representable input shape.  `isSchemaType : Val → Bool` is
defined by well-founded recursion over the (finite, tree-shaped) value and
Lean accepts its termination, so on any `Val` it returns one of the two
booleans and can signal nothing else — the model has no exception or error
channel.  Cyclic inputs are unrepresentable in the inductive `Val`, which
matches the claim's tree-shaped precondition (the stack-exhaustion failure
mode on cyclic JavaScript object graphs lies outside the model). -/
theorem c9_validator_total_boolean (v : Val) :
    isSchemaType v = true ∨ isSchemaType v = false := by
  cases hsv : isSchemaType v
  · exact Or.inr rfl
  · exact Or.inl rfl

/-- Claim C9 witness: the dichotomy at a concrete input. -/
theorem c9_witness :
    isSchemaType Val.vNull = true ∨ isSchemaType Val.vNull = false :=
  c9_validator_total_boolean Val.vNull

/-- Claim C10: for every node of a keyable kind (`Binary`, `String`,
`Number`), an explicit `null` in `keyConfiguration` is not treated as
"no key": `null !== undefined`, so the code falls through to
`isKeyConfiguration(null)`, whose `Boolean(null)` is false — the node is
invalid.  By contrast, omitting the field entirely (second conjunct)
leaves the otherwise-identical node valid. -/
theorem c10_null_key_configuration_rejected :
    (∀ v : Val,
      (getField v "type" = Val.vStr "Binary"
        ∨ getField v "type" = Val.vStr "String"
        ∨ getField v "type" = Val.vStr "Number")
      → getField v "keyConfiguration" = Val.vNull
      → isSchemaType v = false)
    ∧ isSchemaType (Val.vObj [("type", Val.vStr "String")]) = true
    ∧ isSchemaType (Val.vObj [("type", Val.vStr "String"),
        ("keyConfiguration", Val.vNull)]) = false := by
  refine ⟨?_, ?_, ?_⟩
  · intro v hk hn
    by_cases hb : isBaseType v = true
    · have hkey : isKeyableType v = false := by
        simp [isKeyableType, hn, isUndef, isKeyConfiguration, isTruthy]
      rcases hk with hk | hk | hk
      · rw [isSchemaType_tag_Binary hb hk, hkey]
      · rw [isSchemaType_tag_String hb hk, hkey]
      · rw [isSchemaType_tag_Number hb hk, hkey]
        rfl
    · exact isSchemaType_not_base (by simpa using hb)
  · rw [isSchemaType_tag_String ?hb ?ht]
    · rfl
    case ht => rfl
    case hb =>
      simp [isBaseType, getField, jsTypeof, isTruthy, toPropKey, inOp,
            typeTagsKeys, objectPrototypeKeys]
  · rw [isSchemaType_tag_String ?hb2 ?ht2]
    · rfl
    case ht2 => rfl
    case hb2 =>
      simp [isBaseType, getField, jsTypeof, isTruthy, toPropKey, inOp,
            typeTagsKeys, objectPrototypeKeys]

/-- Claim C10 witness: the general conjunct applied at the concrete
String node carrying `keyConfiguration: null`. -/
theorem c10_witness :
    isSchemaType (Val.vObj [("type", Val.vStr "String"),
      ("keyConfiguration", Val.vNull)]) = false :=
  c10_null_key_configuration_rejected.1 _ (Or.inr (Or.inl rfl)) rfl

end SchemaTypeJS
